import Mathlib

/-
  Verification development for the Lumen conversational-assistant core
  (single-file React/TypeScript application).

  The embedding below translates the orchestration core of the source into
  Lean: the Message data model, the MistralService request builder and
  response mapping, tool execution, the dual-backend persistence
  (localStorage + optional Supabase mirror), history loading, the
  send-message pass, and chat clearing.

  Platform primitives that the source calls (fetch, JSON.parse,
  JSON.stringify, encodeURIComponent, Date) are modelled as oracle
  parameters gathered in an environment record: the code under
  verification is the repository's logic, not the browser runtime.
-/

namespace Lumen

/-- `Message.role` enum: 'user' | 'assistant' | 'system' | 'tool'. -/
inductive Role where
  | user
  | assistant
  | system
  | tool
deriving DecidableEq, Repr

/-- The `function` field of a `ToolCall`: `{name, arguments}` where
`arguments` is a JSON string. -/
structure ToolFunction where
  name : String
  arguments : String
deriving DecidableEq, Repr

/-- `ToolCall` interface: `{id, type: 'function', function: {name, arguments}}`.
The `type` field is the literal string "function" on every value, so it is
not carried. -/
structure ToolCall where
  id : String
  function : ToolFunction
deriving DecidableEq, Repr

/-- `Message` interface: role, content, and the three optional fields
(`tool_calls`, `tool_call_id`, `name`); an absent optional field is `none`. -/
structure Message where
  role : Role
  content : String
  tool_calls : Option (List ToolCall) := none
  tool_call_id : Option String := none
  name : Option String := none
deriving DecidableEq, Repr

/-- `ConversationMode` type: 'Explicativo' | 'Profissional' | 'Descontraído'. -/
inductive ConversationMode where
  | Explicativo
  | Profissional
  | Descontraido
deriving DecidableEq, Repr

/-- JavaScript `mode.toUpperCase()` on the three mode strings. -/
def ConversationMode.toUpperCase : ConversationMode → String
  | .Explicativo => "EXPLICATIVO"
  | .Profissional => "PROFISSIONAL"
  | .Descontraido => "DESCONTRAÍDO"

/-- One named string property of a capability schema:
`name: {type, description}`. -/
structure ParamProperty where
  name : String
  type : String
  description : String
deriving DecidableEq, Repr

/-- `parameters: {type: "object", properties: {...}, required: [...]}`. -/
structure ToolParameters where
  type : String
  properties : List ParamProperty
  required : List String
deriving DecidableEq, Repr

/-- `function: {name, description, parameters}` of a declared tool. -/
structure ToolFunctionSchema where
  name : String
  description : String
  parameters : ToolParameters
deriving DecidableEq, Repr

/-- One entry of `MistralService.tools`: `{type: "function", function: {...}}`. -/
structure ToolSchema where
  type : String
  function : ToolFunctionSchema
deriving DecidableEq, Repr

namespace MistralService

/-- `MistralService.tools`: the two statically declared capabilities. -/
def tools : List ToolSchema :=
  [ { type := "function",
      function :=
        { name := "generate_image",
          description := "Gera uma imagem baseada em uma descrição visual detalhada (prompt). Use sempre que o usuário pedir para desenhar, criar imagem, ilustrar ou visualizar algo.",
          parameters :=
            { type := "object",
              properties :=
                [ { name := "prompt",
                    type := "string",
                    description := "A descrição visual detalhada da imagem, preferencialmente em inglês para melhor qualidade." } ],
              required := ["prompt"] } } },
    { type := "function",
      function :=
        { name := "web_search",
          description := "Realiza uma busca simulada na web para obter informações atuais sobre tópicos que você não tem certeza ou notícias recentes.",
          parameters :=
            { type := "object",
              properties :=
                [ { name := "query",
                    type := "string",
                    description := "O termo de busca otimizado." } ],
              required := ["query"] } } } ]

/-- The fixed part of the system directive, a template over
`mode.toUpperCase()` (the TypeScript template literal, whitespace included). -/
def basePrompt (mode : ConversationMode) : String :=
  "Você é Sena, uma Inteligência Artificial Avançada da AmplaAI.

    DIRETRIZES DE SEGURANÇA E COMPORTAMENTO:
    1. Você deve priorizar a acessibilidade, clareza e empatia em todas as respostas.
    2. FORMATAÇÃO: Use Markdown para estruturar suas respostas.
       - Use títulos (##) para organizar tópicos.
       - Use listas (- ou 1.) para instruções passo a passo.
       - Use **negrito** para conceitos chave.
    3. CÓDIGO: Se o usuário pedir código, forneça SOMENTE código seguro, moderno e bem comentado.
       - Envolva o código em blocos markdown triplos (```linguagem ... ```).
       - Explique o código brevemente após o bloco.
    4. MULTITAREFA: Você é capaz de analisar problemas complexos, sugerir cronogramas e organizar ideias.

    MODO ATUAL: " ++ mode.toUpperCase ++ "
    "

/-- The `modeSpecifics` record: the behavioral tail selected by exact match
on the mode. -/
def modeSpecifics : ConversationMode → String
  | .Explicativo =>
      "
      - Seu tom é paciente, didático e acolhedor.
      - Explique termos técnicos.
      - Ideal para idosos e leigos.
      - Se usar ferramentas, explique o que está fazendo."
  | .Profissional =>
      "
      - Seu tom é executivo, direto e focado em eficiência.
      - Ideal para programadores e ambiente corporativo.
      - Respostas concisas e tecnicamente densas."
  | .Descontraido =>
      "
      - Seu tom é leve, divertido e criativo.
      - Pode usar emojis e humor moderado.
      - Ideal para conversas casuais e brainstorming criativo."

/-- `MistralService.getSystemPrompt(mode)`: base prompt concatenated with the
mode-specific tail. -/
def getSystemPrompt (mode : ConversationMode) : String :=
  basePrompt mode ++ modeSpecifics mode

/-- The `history.map(...)` projection in `sendMessage`: each history message
is rebuilt from its five wire fields (`role`, `content`, `tool_calls`,
`tool_call_id`, `name`). Nothing is filtered out. -/
def validMessages (history : List Message) : List Message :=
  history.map fun msg =>
    { role := msg.role, content := msg.content, tool_calls := msg.tool_calls,
      tool_call_id := msg.tool_call_id, name := msg.name }

/-- `messagesPayload` in `sendMessage`: the fresh system message prepended to
`validMessages history`. -/
def messagesPayload (history : List Message) (mode : ConversationMode) :
    List Message :=
  { role := .system, content := getSystemPrompt mode } :: validMessages history

/-- The JSON body of the completion request. The source also sends
`temperature: 0.7`, a floating-point constant with no role in any claim;
it is left out of the embedding. -/
structure ChatRequest where
  model : String
  messages : List Message
  tools : List ToolSchema
  tool_choice : String
deriving Repr

/-- The request body built by `MistralService.sendMessage`. -/
def buildRequest (history : List Message) (mode : ConversationMode) :
    ChatRequest :=
  { model := "mistral-small-latest",
    messages := messagesPayload history mode,
    tools := tools,
    tool_choice := "auto" }

/-- The observable part of the fetch response `sendMessage` inspects:
`ok`, `status`, `statusText`, the error body message field (absent =
`none`), and `data.choices` on success. -/
structure HttpResponse where
  ok : Bool
  status : Nat
  statusText : String
  errMessage : Option String
  choices : List Message
deriving DecidableEq, Repr

/-- JavaScript `err.message || response.statusText`: an absent or empty
(falsy) message falls back to the status text. -/
def jsFalsyOr (m : Option String) (fallback : String) : String :=
  match m with
  | none => fallback
  | some s => if s = "" then fallback else s

/-- The outcome of `MistralService.sendMessage` as a function of the
response: 401 throws the invalid-key error, any other non-ok status throws
the generic API error carrying `err.message || response.statusText`, and a
success returns `data.choices[0].message`. (An ok response with an empty
`choices` list would make the JavaScript throw a TypeError on
`data.choices[0].message`; that case is mapped to an error as well.) -/
def sendMessageOutcome (resp : HttpResponse) : Except String Message :=
  if resp.ok = false then
    if resp.status = 401 then
      .error "Chave de API inválida. Verifique suas configurações."
    else
      .error ("Erro API Mistral: " ++ jsFalsyOr resp.errMessage resp.statusText)
  else
    match resp.choices with
    | m :: _ => .ok m
    | [] => .error "TypeError: data.choices[0] is undefined"

end MistralService

/-- Modelled from the spec (claim wording, for comparison with the code):
the outgoing message list with "any system messages already in the history
ignored (not forwarded)" — the fresh system message followed by the history
with its system-role entries removed. -/
def claimedMessagesPayload (history : List Message) (mode : ConversationMode) :
    List Message :=
  { role := .system, content := MistralService.getSystemPrompt mode }
    :: history.filter (fun m => m.role ≠ .system)

/-- The result of `JSON.parse` on a tool-call argument payload, projected
to the two properties the tool loop reads (`functionArgs.prompt`,
`functionArgs.query`); an absent property is `none` (JavaScript
`undefined`). -/
structure ParsedArgs where
  prompt : Option String := none
  query : Option String := none
deriving DecidableEq, Repr

/-- One row of the Supabase `messages` table as written by
`saveMessageToHistory`: `{role, content, tool_calls: JSON-text|null,
created_at: timestamp}`. `created_at` is `new Date().toISOString()`;
ISO-8601 strings compare exactly as the underlying millisecond instants,
so the timestamp is carried as the millisecond count. -/
structure MirrorRecord where
  role : Role
  content : String
  tool_calls : Option String
  created_at : Nat
deriving DecidableEq, Repr

/-- The records inserted for one batch:
`newMessages.map(m => ({role, content, tool_calls: m.tool_calls ?
JSON.stringify(m.tool_calls) : null, created_at: new Date().toISOString()}))`.
`stringify` is the JSON.stringify oracle; `clock n` is the value of the
n-th `new Date()` call of the run, and `base` the number of such calls
already made (one per previously inserted record). -/
def mkMirrorRecords (stringify : List ToolCall → String) (clock : Nat → Nat) :
    Nat → List Message → List MirrorRecord
  | _, [] => []
  | base, m :: rest =>
      { role := m.role, content := m.content,
        tool_calls := m.tool_calls.map stringify,
        created_at := clock base }
        :: mkMirrorRecords stringify clock (base + 1) rest

/-- The orchestration-relevant application state: the in-memory React
message log, the parsed content of the localStorage key `sena-history`
(`none` = key absent), the Supabase mirror table (`none` = Supabase not
configured), and the two flags the pass touches. -/
structure AppState where
  messages : List Message
  localHistory : Option (List Message)
  mirror : Option (List MirrorRecord)
  showWelcome : Bool
  isLoading : Bool
deriving DecidableEq, Repr

/-- The environment of one `handleSendMessage` pass: the configured API
key, the outcomes of the (at most two) `MistralService.sendMessage`
exchanges, and the platform primitives — `JSON.parse` on a tool-call
argument payload (`.error` = the parse throws, carrying the thrown
message), `encodeURIComponent`, `JSON.stringify`, and the millisecond
clock behind `new Date()`. -/
structure Env where
  apiKey : Option String
  call1 : Except String Message
  call2 : Except String Message
  jsonParse : String → Except String ParsedArgs
  enc : String → String
  stringify : List ToolCall → String
  clock : Nat → Nat

/-- `saveMessageToHistory(newMessages)`: appends to the React state,
overwrites the localStorage record with the full updated list, inserts
one mirror record per new message when Supabase is configured (a detached
write whose failure is only logged), and clears the welcome flag. -/
def saveMessageToHistory (env : Env) (st : AppState)
    (newMessages : List Message) : AppState :=
  let updated := st.messages ++ newMessages
  { messages := updated,
    localHistory := some updated,
    mirror := st.mirror.map fun rs =>
      rs ++ mkMirrorRecords env.stringify env.clock rs.length newMessages,
    showWelcome := false,
    isLoading := st.isLoading }

/-- A JavaScript string interpolation of a possibly-undefined value:
`undefined` renders as the text "undefined". -/
def jsString (o : Option String) : String := o.getD "undefined"

/-- The Pollinations image URL template built for `generate_image`. -/
def pollinationsUrl (enc : String → String) (prompt : String) : String :=
  "https://image.pollinations.ai/prompt/" ++ enc prompt
    ++ "?width=1024&height=1024&nologo=true"

/-- The client-side tool dispatch inside the tool loop: `generate_image`
builds the image-markdown result, `web_search` builds the simulated search
result, and any other name yields the fixed sentinel text. -/
def executeTool (enc : String → String) (functionName : String)
    (functionArgs : ParsedArgs) : String :=
  if functionName = "generate_image" then
    let prompt := jsString functionArgs.prompt
    "Imagem gerada com sucesso: ![" ++ prompt ++ "]("
      ++ pollinationsUrl enc prompt ++ ")"
  else if functionName = "web_search" then
    "Resultado da busca para \"" ++ jsString functionArgs.query
      ++ "\": [Informação recuperada da base de conhecimento atualizada do modelo simulando acesso web]. Considere responder com fatos recentes sobre esse tópico."
  else
    "Ferramenta desconhecida."

/-- The tool loop of `handleSendMessage`, restricted to what it produces:
for each tool call in issued order, parse its argument payload (a throw
aborts the whole loop and hence the pass) and build the tool-role message
`{role: 'tool', name, tool_call_id, content: toolResult}`. -/
def buildToolMessages (env : Env) : List ToolCall → Except String (List Message)
  | [] => .ok []
  | toolCall :: rest =>
    match env.jsonParse toolCall.function.arguments with
    | .error e => .error e
    | .ok functionArgs =>
      let toolMessage : Message :=
        { role := .tool,
          content := executeTool env.enc toolCall.function.name functionArgs,
          tool_call_id := some toolCall.id,
          name := some toolCall.function.name }
      match buildToolMessages env rest with
      | .error e => .error e
      | .ok tms => .ok (toolMessage :: tms)

/-- JavaScript `userInput.trim()`: strip leading and trailing whitespace
(modelled with `Char.isWhitespace` over the character list, which the
kernel can evaluate on concrete strings). -/
def jsTrim (s : String) : String :=
  ⟨((s.data.dropWhile Char.isWhitespace).reverse.dropWhile
      Char.isWhitespace).reverse⟩

/-- The synthesized assistant message of the catch block:
content = "⚠️ Desculpe, ocorreu um erro: " followed by `error.message`. -/
def warningMessage (e : String) : Message :=
  { role := .assistant, content := "⚠️ Desculpe, ocorreu um erro: " ++ e }

/-- How a pass ended: rejected by the entry guard, completed normally, or
caught a failure whose message is recorded. -/
inductive PassOutcome where
  | rejected
  | done
  | failed (errMessage : String)
deriving DecidableEq, Repr

/-- The observable result of one `handleSendMessage` invocation: the final
state, the trace of `saveMessageToHistory` batches in call order, the
number of completion requests issued, and the outcome. -/
structure PassResult where
  state : AppState
  appends : List (List Message)
  apiCalls : Nat
  outcome : PassOutcome
deriving Repr

/-- The catch block: persist the single warning message as its own batch
and clear the busy flag (the `finally`). -/
def failPass (env : Env) (st : AppState) (priorAppends : List (List Message))
    (calls : Nat) (e : String) : PassResult :=
  let stE := saveMessageToHistory env st [warningMessage e]
  { state := { stE with isLoading := false },
    appends := priorAppends ++ [[warningMessage e]],
    apiCalls := calls,
    outcome := .failed e }

/-- `handleSendMessage(userInput)`: the entry guard (`!userInput.trim() ||
isLoading`), the immediate durable append of the user message, the first
completion exchange, the optional tool loop and second exchange, the
single-batch persistence, and the catch path. `env.call1`/`env.call2` are
the exchange outcomes; state updates mirror the source order. -/
def handleSendMessage (env : Env) (st : AppState) (userInput : String) :
    PassResult :=
  if jsTrim userInput = "" ∨ st.isLoading then
    { state := st, appends := [], apiCalls := 0, outcome := .rejected }
  else
    let userMsg : Message := { role := .user, content := userInput }
    let st1 := { saveMessageToHistory env st [userMsg] with isLoading := true }
    match env.apiKey with
    | none => failPass env st1 [[userMsg]] 0 "Chave API Mistral não encontrada."
    | some _ =>
      match env.call1 with
      | .error e => failPass env st1 [[userMsg]] 1 e
      | .ok assistantResponse =>
        match assistantResponse.tool_calls with
        | some (tc :: tcs) =>
          match buildToolMessages env (tc :: tcs) with
          | .error e => failPass env st1 [[userMsg]] 1 e
          | .ok toolMessages =>
            match env.call2 with
            | .error e => failPass env st1 [[userMsg]] 2 e
            | .ok finalResponse =>
              let batch := assistantResponse :: (toolMessages ++ [finalResponse])
              let st2 := saveMessageToHistory env st1 batch
              { state := { st2 with isLoading := false },
                appends := [[userMsg], batch],
                apiCalls := 2,
                outcome := .done }
        | _ =>
          let st2 := saveMessageToHistory env st1 [assistantResponse]
          { state := { st2 with isLoading := false },
            appends := [[userMsg], [assistantResponse]],
            apiCalls := 1,
            outcome := .done }

/-- `handleClearChat` after the user answered the confirm dialog: on
confirmation, empty the React log, remove the localStorage record, and
show the welcome screen again; the Supabase mirror is not touched (the
delete is commented out in the source). The settings-menu flag it also
closes is view state outside this model. -/
def handleClearChat (confirmed : Bool) (st : AppState) : AppState :=
  if confirmed then
    { st with messages := [], localHistory := none, showWelcome := true }
  else st

/-- The store environment seen by `loadChatHistory`: the Supabase query
outcome (`none` = Supabase not configured; `some (.error ())` = the query
threw or returned a non-null `error` or null data; `some (.ok rows)` = the
rows, already ordered by `created_at` ascending by the query), the parsed
content of the localStorage key (`none` = absent), and the `JSON.parse`
oracle for stored `tool_calls` text. -/
structure LoadEnv where
  supabaseQuery : Option (Except Unit (List MirrorRecord))
  localSaved : Option (List Message)
  parseToolCallsJson : String → List ToolCall

/-- What `loadChatHistory` produced: the message log it installed, the
welcome flag, and whether the localStorage fallback was consulted. -/
structure LoadResult where
  messages : List Message
  showWelcome : Bool
  localRead : Bool
deriving DecidableEq, Repr

/-- The row mapper of `loadChatHistory`: `{role, content, tool_calls:
d.tool_calls ? JSON.parse(d.tool_calls) : undefined}` (the source stores
`tool_calls` as JSON text, so only the string branch of its typeof test is
reachable). -/
def formatRecord (parse : String → List ToolCall) (d : MirrorRecord) :
    Message :=
  { role := d.role, content := d.content,
    tool_calls := d.tool_calls.map parse }

/-- The localStorage fallback branch of `loadChatHistory`: if the key is
present, install its parsed content and hide the welcome screen; otherwise
leave the state as it was. Either way the local store was read. -/
def localFallback (env : LoadEnv) (st0 : AppState) : LoadResult :=
  match env.localSaved with
  | some saved => { messages := saved, showWelcome := false, localRead := true }
  | none =>
      { messages := st0.messages, showWelcome := st0.showWelcome,
        localRead := true }

/-- `loadChatHistory()`: try Supabase first; only a successful query with a
non-empty row list is installed (and returns early, never touching
localStorage); a missing client, an error, or an empty result falls back
to the local store. -/
def loadChatHistory (env : LoadEnv) (st0 : AppState) : LoadResult :=
  match env.supabaseQuery with
  | some (.ok data) =>
    if data.length > 0 then
      { messages := data.map (formatRecord env.parseToolCallsJson),
        showWelcome := false, localRead := false }
    else localFallback env st0
  | some (.error _) => localFallback env st0
  | none => localFallback env st0

/- ---- Concrete fixtures used by the witness theorems ---- -/

/-- The application state at start-up: empty log, no stores written yet,
welcome screen shown, not busy. -/
def initialState : AppState :=
  { messages := [], localHistory := none, mirror := none,
    showWelcome := true, isLoading := false }

/-- Fixture: a pass whose first response requests both declared
capabilities (image, then search) and whose second response succeeds. -/
def envToolPass : Env :=
  { apiKey := some "k",
    call1 := .ok { role := .assistant, content := "",
                   tool_calls := some
                     [{ id := "A",
                        function := { name := "generate_image",
                                      arguments := "\x7b\"prompt\":\"a cat\"\x7d" } },
                      { id := "B",
                        function := { name := "web_search",
                                      arguments := "\x7b\"query\":\"gatos\"\x7d" } }] },
    call2 := .ok { role := .assistant, content := "pronto" },
    jsonParse := fun _ => .ok { prompt := some "a cat", query := some "gatos" },
    enc := fun s => s,
    stringify := fun _ => "[]",
    clock := fun n => n }

/-- Fixture: the first completion exchange throws with message "quota". -/
def envRemoteFailure : Env :=
  { apiKey := some "k",
    call1 := .error "quota",
    call2 := .error "quota",
    jsonParse := fun _ => .error "unexpected token",
    enc := fun s => s,
    stringify := fun _ => "[]",
    clock := fun _ => 0 }

/-- Fixture: no API key is configured, so every pass fails right after
persisting the user message. -/
def envNoKey : Env :=
  { apiKey := none,
    call1 := .error "sem chave",
    call2 := .error "sem chave",
    jsonParse := fun _ => .error "sem chave",
    enc := fun s => s,
    stringify := fun _ => "[]",
    clock := fun _ => 0 }

/-- Fixture: the first response requests a capability name that is not
declared; both exchanges succeed. -/
def envUnknownTool : Env :=
  { apiKey := some "k",
    call1 := .ok { role := .assistant, content := "",
                   tool_calls := some
                     [{ id := "X1",
                        function := { name := "ferramenta_x",
                                      arguments := "\x7b\x7d" } }] },
    call2 := .ok { role := .assistant, content := "essa ferramenta eu não conheço" },
    jsonParse := fun _ => .ok {},
    enc := fun s => s,
    stringify := fun _ => "[]",
    clock := fun n => n }

/- ======================== Theorems ======================== -/

/-- The `history.map` projection of `sendMessage` rebuilds every message
from all five of its fields, so it is the identity: nothing — in
particular no system-role message — is removed from the history. -/
theorem validMessages_id (history : List Message) :
    MistralService.validMessages history = history := by
  induction history with
  | nil => rfl
  | cons m rest ih =>
    show ({ role := m.role, content := m.content, tool_calls := m.tool_calls,
            tool_call_id := m.tool_call_id, name := m.name } : Message)
          :: MistralService.validMessages rest = m :: rest
    rw [ih]

/-- C5 counterexample: on a history that already contains a system
message, the payload the code builds (fresh system message plus the whole
history) differs from the claimed payload (fresh system message plus the
history with system messages removed): the old system message is
forwarded, not ignored. -/
theorem C5_counterexample :
    (MistralService.messagesPayload
        [{ role := .system, content := "diretiva antiga" }] .Explicativo).length = 2
      ∧ (claimedMessagesPayload
        [{ role := .system, content := "diretiva antiga" }] .Explicativo).length = 1
      ∧ MistralService.messagesPayload
          [{ role := .system, content := "diretiva antiga" }] .Explicativo
        ≠ claimedMessagesPayload
          [{ role := .system, content := "diretiva antiga" }] .Explicativo := by
  refine ⟨rfl, by simp [claimedMessagesPayload], fun h => ?_⟩
  have h2 := congrArg List.length h
  simp [MistralService.messagesPayload, MistralService.validMessages,
    claimedMessagesPayload] at h2

/-- C5 (amended): `sendMessage` builds the request with the message list
being exactly one freshly composed system message for the given mode
followed by the given history in order — system messages already in the
history are forwarded unchanged, not ignored — while the declared
capability schemas travel in the request's separate `tools` field. -/
theorem C5_request_shape (history : List Message) (mode : ConversationMode) :
    (MistralService.buildRequest history mode).messages
        = { role := .system, content := MistralService.getSystemPrompt mode }
            :: history
      ∧ (MistralService.buildRequest history mode).tools = MistralService.tools
      ∧ (MistralService.buildRequest history mode).tool_choice = "auto"
      ∧ (MistralService.buildRequest history mode).model
          = "mistral-small-latest" := by
  refine ⟨?_, rfl, rfl, rfl⟩
  show MistralService.messagesPayload history mode = _
  rw [MistralService.messagesPayload, validMessages_id]

/-- C8: the completion response mapping — a non-ok 401 yields the
invalid-credential error, any other non-ok response yields the generic
error carrying `err.message || statusText`, and a success returns the
first choice's message verbatim (tool calls included, uninterpreted). -/
theorem C8_response_mapping (resp : MistralService.HttpResponse) :
    (resp.ok = false → resp.status = 401 →
        MistralService.sendMessageOutcome resp
          = .error "Chave de API inválida. Verifique suas configurações.")
      ∧ (resp.ok = false → resp.status ≠ 401 →
        MistralService.sendMessageOutcome resp
          = .error ("Erro API Mistral: "
              ++ MistralService.jsFalsyOr resp.errMessage resp.statusText))
      ∧ (∀ m rest, resp.ok = true → resp.choices = m :: rest →
        MistralService.sendMessageOutcome resp = .ok m) := by
  refine ⟨?_, ?_, ?_⟩
  · intro hok h401
    simp [MistralService.sendMessageOutcome, hok, h401]
  · intro hok h401
    simp [MistralService.sendMessageOutcome, hok, h401]
  · intro m rest hok hch
    simp [MistralService.sendMessageOutcome, hok, hch]

/-- C8 witness: the three mappings at concrete responses — a 401, a 500
whose body carries "quota", and a success whose first choice carries a
tool call, each resolved by `C8_response_mapping`. -/
theorem C8_response_mapping_witness :
    MistralService.sendMessageOutcome
        { ok := false, status := 401, statusText := "Unauthorized",
          errMessage := none, choices := [] }
      = .error "Chave de API inválida. Verifique suas configurações."
    ∧ MistralService.sendMessageOutcome
        { ok := false, status := 500, statusText := "Internal Server Error",
          errMessage := some "quota", choices := [] }
      = .error "Erro API Mistral: quota"
    ∧ MistralService.sendMessageOutcome
        { ok := true, status := 200, statusText := "OK", errMessage := none,
          choices := [{ role := .assistant, content := "",
                        tool_calls := some [{ id := "c1",
                                              function := { name := "web_search",
                                                            arguments := "\x7b\"query\":\"noticias\"\x7d" } }] }] }
      = .ok { role := .assistant, content := "",
              tool_calls := some [{ id := "c1",
                                    function := { name := "web_search",
                                                  arguments := "\x7b\"query\":\"noticias\"\x7d" } }] } := by
  refine ⟨(C8_response_mapping _).1 rfl rfl, ?_,
    (C8_response_mapping _).2.2 _ [] rfl rfl⟩
  have h := (C8_response_mapping
    { ok := false, status := 500, statusText := "Internal Server Error",
      errMessage := some "quota", choices := [] }).2.1 rfl (by decide)
  exact h.trans (congrArg
    (fun s => (Except.error s : Except String Message)) (by decide))

/-- C10: a confirmed clear-chat empties the in-memory log and deletes the
local store's record, while the remote mirror is left completely
unchanged. -/
theorem C10_clear_chat_frame (st : AppState) :
    (handleClearChat true st).messages = []
      ∧ (handleClearChat true st).localHistory = none
      ∧ (handleClearChat true st).mirror = st.mirror := by
  exact ⟨rfl, rfl, rfl⟩

/-- C6: while the busy flag is set, `handleSendMessage` is a no-op — the
state (log included) is returned unchanged, nothing is appended, and no
completion request is issued. -/
theorem C6_single_flight (env : Env) (st : AppState) (userInput : String) :
    handleSendMessage env { st with isLoading := true } userInput
      = { state := { st with isLoading := true }, appends := [],
          apiCalls := 0, outcome := .rejected } := by
  simp [handleSendMessage]

/-- C2: load precedence. At start-up (empty in-memory log), a configured
primary that answers with a non-empty row list wins outright — its
formatted rows are installed and the local store is never read — while a
missing client, an erroring query, or an empty row list makes the result
exactly the local store's content (empty when the key is absent), read
from the local fallback. -/
theorem C2_load_precedence (env : LoadEnv) (st0 : AppState)
    (hinit : st0.messages = []) :
    (∀ rows, env.supabaseQuery = some (.ok rows) → rows ≠ [] →
        loadChatHistory env st0
          = { messages := rows.map (formatRecord env.parseToolCallsJson),
              showWelcome := false, localRead := false })
      ∧ ((env.supabaseQuery = none ∨ env.supabaseQuery = some (.error ())
            ∨ env.supabaseQuery = some (.ok [])) →
          (loadChatHistory env st0).messages = env.localSaved.getD []
            ∧ (loadChatHistory env st0).localRead = true) := by
  constructor
  · intro rows hq hne
    simp [loadChatHistory, hq, List.length_pos.mpr hne]
  · intro hq
    rcases hq with hq | hq | hq <;>
      · simp only [loadChatHistory, hq]
        cases hl : env.localSaved <;> simp [localFallback, hl, hinit]

/-- C2 witness: `C2_load_precedence` evaluated at two concrete store
states — a primary holding one row beats a non-empty local store, and an
erroring primary falls back to that local store. -/
theorem C2_load_precedence_witness :
    loadChatHistory
        { supabaseQuery := some (.ok [{ role := .user, content := "oi",
                                        tool_calls := none, created_at := 5 }]),
          localSaved := some [{ role := .assistant, content := "local" }],
          parseToolCallsJson := fun _ => [] }
        { messages := [], localHistory := none, mirror := none,
          showWelcome := true, isLoading := false }
      = { messages := [{ role := .user, content := "oi" }],
          showWelcome := false, localRead := false }
    ∧ (loadChatHistory
        { supabaseQuery := some (.error ()),
          localSaved := some [{ role := .assistant, content := "local" }],
          parseToolCallsJson := fun _ => [] }
        { messages := [], localHistory := none, mirror := none,
          showWelcome := true, isLoading := false }).messages
      = [{ role := .assistant, content := "local" }] := by
  constructor
  · exact ((C2_load_precedence _ _ rfl).1 _ rfl (by decide)).trans (by decide)
  · have h := (C2_load_precedence
      { supabaseQuery := some (.error ()),
        localSaved := some [{ role := .assistant, content := "local" }],
        parseToolCallsJson := fun _ => [] }
      { messages := [], localHistory := none, mirror := none,
        showWelcome := true, isLoading := false } rfl).2 (Or.inr (Or.inl rfl))
    exact h.1.trans (by decide)

/-- The mirror records of a batch carry the roles of the batch's messages
in order. -/
theorem mkMirrorRecords_roles (strf : List ToolCall → String)
    (clock : Nat → Nat) :
    ∀ (base : Nat) (msgs : List Message),
      (mkMirrorRecords strf clock base msgs).map MirrorRecord.role
        = msgs.map Message.role := by
  intro base msgs
  induction msgs generalizing base with
  | nil => rfl
  | cons m rest ih => simp [mkMirrorRecords, ih]

/-- The mirror records of a batch carry the contents of the batch's
messages in order. -/
theorem mkMirrorRecords_contents (strf : List ToolCall → String)
    (clock : Nat → Nat) :
    ∀ (base : Nat) (msgs : List Message),
      (mkMirrorRecords strf clock base msgs).map MirrorRecord.content
        = msgs.map Message.content := by
  intro base msgs
  induction msgs generalizing base with
  | nil => rfl
  | cons m rest ih => simp [mkMirrorRecords, ih]

/-- The mirror records of a batch carry the stringified tool calls (or
null) of the batch's messages in order. -/
theorem mkMirrorRecords_toolCalls (strf : List ToolCall → String)
    (clock : Nat → Nat) :
    ∀ (base : Nat) (msgs : List Message),
      (mkMirrorRecords strf clock base msgs).map MirrorRecord.tool_calls
        = msgs.map (fun m => m.tool_calls.map strf) := by
  intro base msgs
  induction msgs generalizing base with
  | nil => rfl
  | cons m rest ih => simp [mkMirrorRecords, ih]

/-- The i-th record of a batch is stamped with the (base+i)-th clock
reading. -/
theorem mkMirrorRecords_createdAt (strf : List ToolCall → String)
    (clock : Nat → Nat) :
    ∀ (base : Nat) (msgs : List Message),
      (mkMirrorRecords strf clock base msgs).map MirrorRecord.created_at
        = (List.range msgs.length).map (fun i => clock (base + i)) := by
  intro base msgs
  induction msgs generalizing base with
  | nil => rfl
  | cons m rest ih =>
    simp only [mkMirrorRecords, List.map_cons, List.length_cons,
      List.range_succ_eq_map, List.map_map, ih]
    refine congrArg₂ _ (by rw [Nat.add_zero]) ?_
    have hf : (fun i => clock (base + 1 + i))
        = ((fun i => clock (base + i)) ∘ Nat.succ) := by
      funext i
      simp [Function.comp, Nat.add_assoc, Nat.add_comm 1 i]
    rw [hf]

/-- With a monotone clock, every record of a batch is stamped no earlier
than the clock reading at the batch's start. -/
theorem mkMirrorRecords_createdAt_ge (strf : List ToolCall → String)
    (clock : Nat → Nat) (hmono : ∀ i j, i ≤ j → clock i ≤ clock j) :
    ∀ (base : Nat) (msgs : List Message) (r : MirrorRecord),
      r ∈ mkMirrorRecords strf clock base msgs →
        clock base ≤ r.created_at := by
  intro base msgs
  induction msgs generalizing base with
  | nil => intro r hr; simp [mkMirrorRecords] at hr
  | cons m rest ih =>
    intro r hr
    rcases List.mem_cons.mp hr with h | h
    · rw [h]
    · exact le_trans (hmono base (base + 1) (Nat.le_succ base)) (ih (base + 1) r h)

/-- With a monotone clock, the created-at stamps of a batch's records are
nondecreasing in append order. -/
theorem mkMirrorRecords_pairwise (strf : List ToolCall → String)
    (clock : Nat → Nat) (hmono : ∀ i j, i ≤ j → clock i ≤ clock j) :
    ∀ (base : Nat) (msgs : List Message),
      List.Pairwise (fun a b => a.created_at ≤ b.created_at)
        (mkMirrorRecords strf clock base msgs) := by
  intro base msgs
  induction msgs generalizing base with
  | nil => exact List.Pairwise.nil
  | cons m rest ih =>
    refine List.Pairwise.cons ?_ (ih (base + 1))
    intro r hr
    exact le_trans (hmono base (base + 1) (Nat.le_succ base))
      (mkMirrorRecords_createdAt_ge strf clock hmono (base + 1) rest r hr)

/-- C9 counterexample: both `new Date()` calls of one two-message batch
can fall in the same millisecond (the map runs synchronously), so the two
records carry identical `created_at` stamps; the reversed record list is
then just as ordered by `created_at` as the appended one while being a
different list — ordering by `created_at` does not totally order the
messages of the batch and cannot reproduce their append order. -/
theorem C9_counterexample :
    (mkMirrorRecords (fun _ => "null") (fun _ => 1700000000000) 0
        [{ role := .user, content := "a" }, { role := .user, content := "b" }]).map
        MirrorRecord.created_at
      = [1700000000000, 1700000000000]
    ∧ List.Pairwise (fun a b : MirrorRecord => a.created_at ≤ b.created_at)
        (mkMirrorRecords (fun _ => "null") (fun _ => 1700000000000) 0
          [{ role := .user, content := "a" },
           { role := .user, content := "b" }]).reverse
    ∧ (mkMirrorRecords (fun _ => "null") (fun _ => 1700000000000) 0
        [{ role := .user, content := "a" },
         { role := .user, content := "b" }]).reverse
      ≠ mkMirrorRecords (fun _ => "null") (fun _ => 1700000000000) 0
          [{ role := .user, content := "a" },
           { role := .user, content := "b" }] := by
  refine ⟨rfl, ?_, by decide⟩
  decide

/-- C9 (amended): each mirror record is `{role, content, toolCalls
JSON-text or null, createdAt}` taken field-for-field from its message,
stamped with one clock reading per record in call order; with a monotone
clock the stamps are nondecreasing in append order, but (per the
counterexample) consecutive stamps may coincide, so `created_at` need not
totally order the records of one batch. -/
theorem C9_mirror_record_shape (strf : List ToolCall → String)
    (clock : Nat → Nat) (base : Nat) (msgs : List Message)
    (hmono : ∀ i j, i ≤ j → clock i ≤ clock j) :
    (mkMirrorRecords strf clock base msgs).map MirrorRecord.role
        = msgs.map Message.role
      ∧ (mkMirrorRecords strf clock base msgs).map MirrorRecord.content
        = msgs.map Message.content
      ∧ (mkMirrorRecords strf clock base msgs).map MirrorRecord.tool_calls
        = msgs.map (fun m => m.tool_calls.map strf)
      ∧ (mkMirrorRecords strf clock base msgs).map MirrorRecord.created_at
        = (List.range msgs.length).map (fun i => clock (base + i))
      ∧ List.Pairwise (fun a b => a.created_at ≤ b.created_at)
          (mkMirrorRecords strf clock base msgs) := by
  exact ⟨mkMirrorRecords_roles strf clock base msgs,
    mkMirrorRecords_contents strf clock base msgs,
    mkMirrorRecords_toolCalls strf clock base msgs,
    mkMirrorRecords_createdAt strf clock base msgs,
    mkMirrorRecords_pairwise strf clock hmono base msgs⟩

/-- C9 witness: `C9_mirror_record_shape` at a concrete two-message batch
under the identity clock (which is monotone). -/
theorem C9_mirror_record_shape_witness :
    (mkMirrorRecords (fun _ => "null") (fun n => n) 3
        [{ role := .user, content := "oi" },
         { role := .assistant, content := "olá" }]).map
        MirrorRecord.created_at
      = [3, 4]
    ∧ List.Pairwise (fun a b : MirrorRecord => a.created_at ≤ b.created_at)
        (mkMirrorRecords (fun _ => "null") (fun n => n) 3
          [{ role := .user, content := "oi" },
           { role := .assistant, content := "olá" }]) := by
  have h := C9_mirror_record_shape (fun _ => "null") (fun n => n) 3
    [{ role := .user, content := "oi" },
     { role := .assistant, content := "olá" }] (fun i j hij => hij)
  exact ⟨h.2.2.2.1.trans (by decide), h.2.2.2.2⟩

/-- Characterization of a successful tool loop: the result has one
tool-role message per tool call, and the i-th message is built from the
i-th call — tool role, the executed capability's result as content, the
call's id as `tool_call_id`, and the capability name as `name`. -/
theorem buildToolMessages_get (env : Env) :
    ∀ (tcs : List ToolCall) (tms : List Message),
      buildToolMessages env tcs = .ok tms →
        tms.length = tcs.length
          ∧ ∀ (i : Nat) (tc : ToolCall), tcs[i]? = some tc →
              ∃ args, env.jsonParse tc.function.arguments = .ok args
                ∧ tms[i]? = some { role := .tool,
                                   content := executeTool env.enc tc.function.name args,
                                   tool_call_id := some tc.id,
                                   name := some tc.function.name } := by
  intro tcs
  induction tcs with
  | nil =>
    intro tms h
    simp only [buildToolMessages, Except.ok.injEq] at h
    subst h
    exact ⟨rfl, by intro i tc hx; simp at hx⟩
  | cons tc rest ih =>
    intro tms h
    cases hp : env.jsonParse tc.function.arguments with
    | error e => simp [buildToolMessages, hp] at h
    | ok args =>
      cases hb : buildToolMessages env rest with
      | error e => simp [buildToolMessages, hp, hb] at h
      | ok tms2 =>
        simp only [buildToolMessages, hp, hb, Except.ok.injEq] at h
        subst h
        obtain ⟨hlen, hget⟩ := ih tms2 hb
        refine ⟨by simp [hlen], ?_⟩
        intro i tcx hx
        cases i with
        | zero =>
          simp only [List.getElem?_cons_zero, Option.some.injEq] at hx
          subst hx
          exact ⟨args, hp, by simp⟩
        | succ n =>
          simp only [List.getElem?_cons_succ] at hx ⊢
          exact hget n tcx hx

/-- When every tool call's argument payload parses, the tool loop
completes without a decode failure. -/
theorem buildToolMessages_total (env : Env) :
    ∀ tcs : List ToolCall,
      (∀ tc ∈ tcs, ∃ args, env.jsonParse tc.function.arguments = .ok args) →
        ∃ tms, buildToolMessages env tcs = .ok tms := by
  intro tcs
  induction tcs with
  | nil => exact fun _ => ⟨[], rfl⟩
  | cons tc rest ih =>
    intro hall
    obtain ⟨args, hp⟩ := hall tc (List.mem_cons_self tc rest)
    obtain ⟨tms, hb⟩ := ih (fun t ht => hall t (List.mem_cons_of_mem tc ht))
    refine ⟨{ role := .tool,
              content := executeTool env.enc tc.function.name args,
              tool_call_id := some tc.id,
              name := some tc.function.name } :: tms, ?_⟩
    simp [buildToolMessages, hp, hb]

/-- C1: in a pass whose first completion response carries a non-empty
tool-call list all of whose argument payloads parse, the pass ends in
Done after two completion exchanges, and the batch persisted at the end
of the pass — as the single second `saveMessageToHistory` call of the
pass — is exactly the assistant message carrying the tool calls, one
tool-role result message per tool call in issued order, and the final
assistant message. -/
theorem C1_tool_pass_single_batch (env : Env) (st : AppState)
    (userInput : String) (htrim : jsTrim userInput ≠ "")
    (hbusy : st.isLoading = false) (k : String)
    (hkey : env.apiKey = some k) (a : Message) (tcs : List ToolCall)
    (h1 : env.call1 = .ok a) (htc : a.tool_calls = some tcs) (hne : tcs ≠ [])
    (hparse : ∀ tc ∈ tcs, ∃ args, env.jsonParse tc.function.arguments = .ok args)
    (f : Message) (h2 : env.call2 = .ok f) :
    ∃ tms, buildToolMessages env tcs = .ok tms
      ∧ tms.length = tcs.length
      ∧ (∀ (i : Nat) (tc : ToolCall), tcs[i]? = some tc →
          ∃ m : Message, tms[i]? = some m ∧ m.role = .tool
            ∧ m.tool_call_id = some tc.id ∧ m.name = some tc.function.name)
      ∧ (handleSendMessage env st userInput).appends
          = [[{ role := .user, content := userInput }], a :: (tms ++ [f])]
      ∧ (handleSendMessage env st userInput).outcome = .done
      ∧ (handleSendMessage env st userInput).apiCalls = 2 := by
  obtain ⟨tms, hb⟩ := buildToolMessages_total env tcs hparse
  obtain ⟨hlen, hget⟩ := buildToolMessages_get env tcs tms hb
  obtain ⟨tc0, rest, rfl⟩ := List.exists_cons_of_ne_nil hne
  refine ⟨tms, hb, hlen, ?_, ?_, ?_, ?_⟩
  · intro i tc hx
    obtain ⟨args, _, hm⟩ := hget i tc hx
    exact ⟨_, hm, rfl, rfl, rfl⟩
  all_goals simp [handleSendMessage, htrim, hbusy, hkey, h1, htc, hb, h2]

/-- C3: whenever the first exchange fails, any argument payload fails to
parse (aborting the whole tool loop), or the second exchange fails, the
pending batch is discarded: the pass persists only the user message
(from before the failure) and then, as the pass's sole further batch, one
assistant message whose content is the warning marker followed by the
failure's message; at most the two normal requests were issued — no
retry. -/
theorem C3_failure_single_warning (env : Env) (st : AppState)
    (userInput : String) (htrim : jsTrim userInput ≠ "")
    (hbusy : st.isLoading = false) (k : String) (hkey : env.apiKey = some k)
    (e : String)
    (hfail : env.call1 = .error e
      ∨ (∃ a tc tcs, env.call1 = .ok a ∧ a.tool_calls = some (tc :: tcs)
          ∧ buildToolMessages env (tc :: tcs) = .error e)
      ∨ (∃ a tc tcs tms, env.call1 = .ok a ∧ a.tool_calls = some (tc :: tcs)
          ∧ buildToolMessages env (tc :: tcs) = .ok tms
          ∧ env.call2 = .error e)) :
    (handleSendMessage env st userInput).appends
        = [[{ role := .user, content := userInput }],
           [{ role := .assistant,
              content := "⚠️ Desculpe, ocorreu um erro: " ++ e }]]
      ∧ (handleSendMessage env st userInput).outcome = .failed e
      ∧ (handleSendMessage env st userInput).state.messages
          = st.messages
              ++ [{ role := .user, content := userInput },
                  { role := .assistant,
                    content := "⚠️ Desculpe, ocorreu um erro: " ++ e }]
      ∧ (handleSendMessage env st userInput).apiCalls ≤ 2 := by
  rcases hfail with h1 | ⟨a, tc, tcs, h1, htc, hbm⟩ | ⟨a, tc, tcs, tms, h1, htc, hbm, h2⟩
  · refine ⟨?_, ?_, ?_, ?_⟩ <;>
      simp [handleSendMessage, failPass, saveMessageToHistory, warningMessage,
        htrim, hbusy, hkey, h1]
  · refine ⟨?_, ?_, ?_, ?_⟩ <;>
      simp [handleSendMessage, failPass, saveMessageToHistory, warningMessage,
        htrim, hbusy, hkey, h1, htc, hbm]
  · refine ⟨?_, ?_, ?_, ?_⟩ <;>
      simp [handleSendMessage, failPass, saveMessageToHistory, warningMessage,
        htrim, hbusy, hkey, h1, htc, hbm, h2]

/-- C4: in every accepted pass, the first persistence of the pass is the
user message alone (the `saveMessageToHistory([userMsg])` awaited before
any completion request), and whatever happens afterwards — either
exchange failing, a payload failing to parse, the key being absent — the
final log still extends the prior log with that user message at its
original position. -/
theorem C4_user_message_durable (env : Env) (st : AppState)
    (userInput : String) (htrim : jsTrim userInput ≠ "")
    (hbusy : st.isLoading = false) :
    (handleSendMessage env st userInput).appends.head?
        = some [{ role := .user, content := userInput }]
      ∧ ∃ rest, (handleSendMessage env st userInput).state.messages
          = st.messages ++ { role := .user, content := userInput } :: rest := by
  cases hkey : env.apiKey with
  | none =>
    exact ⟨by simp [handleSendMessage, failPass, htrim, hbusy, hkey],
      ⟨[warningMessage "Chave API Mistral não encontrada."],
        by simp [handleSendMessage, failPass, saveMessageToHistory,
          htrim, hbusy, hkey]⟩⟩
  | some k =>
    cases h1 : env.call1 with
    | error e =>
      exact ⟨by simp [handleSendMessage, failPass, htrim, hbusy, hkey, h1],
        ⟨[warningMessage e],
          by simp [handleSendMessage, failPass, saveMessageToHistory,
            htrim, hbusy, hkey, h1]⟩⟩
    | ok a =>
      cases htc : a.tool_calls with
      | none =>
        exact ⟨by simp [handleSendMessage, htrim, hbusy, hkey, h1, htc],
          ⟨[a], by simp [handleSendMessage, saveMessageToHistory,
            htrim, hbusy, hkey, h1, htc]⟩⟩
      | some tcs =>
        cases tcs with
        | nil =>
          exact ⟨by simp [handleSendMessage, htrim, hbusy, hkey, h1, htc],
            ⟨[a], by simp [handleSendMessage, saveMessageToHistory,
              htrim, hbusy, hkey, h1, htc]⟩⟩
        | cons tc tcs2 =>
          cases hb : buildToolMessages env (tc :: tcs2) with
          | error e =>
            exact ⟨by simp [handleSendMessage, failPass,
                htrim, hbusy, hkey, h1, htc, hb],
              ⟨[warningMessage e],
                by simp [handleSendMessage, failPass, saveMessageToHistory,
                  htrim, hbusy, hkey, h1, htc, hb]⟩⟩
          | ok tms =>
            cases h2 : env.call2 with
            | error e =>
              exact ⟨by simp [handleSendMessage, failPass,
                  htrim, hbusy, hkey, h1, htc, hb, h2],
                ⟨[warningMessage e],
                  by simp [handleSendMessage, failPass, saveMessageToHistory,
                    htrim, hbusy, hkey, h1, htc, hb, h2]⟩⟩
            | ok f =>
              exact ⟨by simp [handleSendMessage,
                  htrim, hbusy, hkey, h1, htc, hb, h2],
                ⟨a :: (tms ++ [f]),
                  by simp [handleSendMessage, saveMessageToHistory,
                    htrim, hbusy, hkey, h1, htc, hb, h2]⟩⟩

/-- C7: a tool call whose capability name is neither `generate_image` nor
`web_search` produces, instead of any failure, a tool-role message whose
content is the fixed sentinel text "Ferramenta desconhecida.", and the
pass still runs the second exchange and persists the full batch, ending
in Done — not Failed. -/
theorem C7_unknown_capability_sentinel (env : Env) (st : AppState)
    (userInput : String) (htrim : jsTrim userInput ≠ "")
    (hbusy : st.isLoading = false) (k : String) (hkey : env.apiKey = some k)
    (a : Message) (tcs : List ToolCall) (h1 : env.call1 = .ok a)
    (htc : a.tool_calls = some tcs) (i : Nat) (tc : ToolCall)
    (hi : tcs[i]? = some tc)
    (hn1 : tc.function.name ≠ "generate_image")
    (hn2 : tc.function.name ≠ "web_search")
    (hparse : ∀ t ∈ tcs, ∃ args, env.jsonParse t.function.arguments = .ok args)
    (f : Message) (h2 : env.call2 = .ok f) :
    ∃ tms, buildToolMessages env tcs = .ok tms
      ∧ (∃ m : Message, tms[i]? = some m ∧ m.role = .tool
          ∧ m.content = "Ferramenta desconhecida.")
      ∧ (handleSendMessage env st userInput).outcome = .done
      ∧ (handleSendMessage env st userInput).apiCalls = 2
      ∧ (handleSendMessage env st userInput).appends
          = [[{ role := .user, content := userInput }], a :: (tms ++ [f])] := by
  obtain ⟨tms, hb⟩ := buildToolMessages_total env tcs hparse
  obtain ⟨hlen, hget⟩ := buildToolMessages_get env tcs tms hb
  have hne : tcs ≠ [] := by
    intro hnil
    rw [hnil] at hi
    simp at hi
  obtain ⟨tc0, rest, rfl⟩ := List.exists_cons_of_ne_nil hne
  obtain ⟨args, _, hm⟩ := hget i tc hi
  refine ⟨tms, hb, ⟨_, hm, rfl, ?_⟩, ?_, ?_, ?_⟩
  · simp [executeTool, hn1, hn2]
  all_goals simp [handleSendMessage, htrim, hbusy, hkey, h1, htc, hb, h2]

/-- C1 witness: `C1_tool_pass_single_batch` on the two-tool fixture. The
persisted batch is exactly the assistant message with both calls, the two
tool results in issued order (their contents computed by `executeTool`),
and the final assistant message. -/
theorem C1_tool_pass_single_batch_witness :
    (handleSendMessage envToolPass initialState "desenhe um gato").outcome
        = .done
      ∧ (handleSendMessage envToolPass initialState "desenhe um gato").apiCalls
        = 2
      ∧ (handleSendMessage envToolPass initialState "desenhe um gato").appends
        = [[{ role := .user, content := "desenhe um gato" }],
           [{ role := .assistant, content := "",
              tool_calls := some
                [{ id := "A",
                   function := { name := "generate_image",
                                 arguments := "\x7b\"prompt\":\"a cat\"\x7d" } },
                 { id := "B",
                   function := { name := "web_search",
                                 arguments := "\x7b\"query\":\"gatos\"\x7d" } }] },
            { role := .tool,
              content := "Imagem gerada com sucesso: ![a cat](https://image.pollinations.ai/prompt/a cat?width=1024&height=1024&nologo=true)",
              tool_call_id := some "A", name := some "generate_image" },
            { role := .tool,
              content := "Resultado da busca para \"gatos\": [Informação recuperada da base de conhecimento atualizada do modelo simulando acesso web]. Considere responder com fatos recentes sobre esse tópico.",
              tool_call_id := some "B", name := some "web_search" },
            { role := .assistant, content := "pronto" }]] := by
  obtain ⟨tms, hb, hlen, hcorr, happ, hdone, hcalls⟩ :=
    C1_tool_pass_single_batch envToolPass initialState "desenhe um gato"
      (by decide) rfl "k" rfl _ _ rfl rfl (by decide)
      (fun t ht => ⟨{ prompt := some "a cat", query := some "gatos" }, rfl⟩)
      _ rfl
  have he : buildToolMessages envToolPass
      [{ id := "A",
         function := { name := "generate_image",
                       arguments := "\x7b\"prompt\":\"a cat\"\x7d" } },
       { id := "B",
         function := { name := "web_search",
                       arguments := "\x7b\"query\":\"gatos\"\x7d" } }]
      = .ok
        [{ role := .tool,
           content := "Imagem gerada com sucesso: ![a cat](https://image.pollinations.ai/prompt/a cat?width=1024&height=1024&nologo=true)",
           tool_call_id := some "A", name := some "generate_image" },
         { role := .tool,
           content := "Resultado da busca para \"gatos\": [Informação recuperada da base de conhecimento atualizada do modelo simulando acesso web]. Considere responder com fatos recentes sobre esse tópico.",
           tool_call_id := some "B", name := some "web_search" }] := rfl
  have htms := he.symm.trans hb
  injection htms with htms2
  rw [← htms2] at happ
  exact ⟨hdone, hcalls, happ⟩

/-- C3 witness: `C3_failure_single_warning` on the fixture whose first
exchange throws "quota": the pass persists the user message and then only
the single warning assistant message, and ends Failed. -/
theorem C3_failure_single_warning_witness :
    (handleSendMessage envRemoteFailure initialState "olá").appends
        = [[{ role := .user, content := "olá" }],
           [{ role := .assistant,
              content := "⚠️ Desculpe, ocorreu um erro: quota" }]]
      ∧ (handleSendMessage envRemoteFailure initialState "olá").outcome
        = .failed "quota"
      ∧ (handleSendMessage envRemoteFailure initialState "olá").apiCalls ≤ 2 := by
  have h := C3_failure_single_warning envRemoteFailure initialState "olá"
    (by decide) rfl "k" rfl "quota" (Or.inl rfl)
  exact ⟨h.1, h.2.1, h.2.2.2⟩

/-- C4 witness: `C4_user_message_durable` on the fixture with no API key —
the worst downstream failure — where the user message is still the first
persisted batch and still sits in the final log. -/
theorem C4_user_message_durable_witness :
    (handleSendMessage envNoKey initialState "oi").appends.head?
        = some [{ role := .user, content := "oi" }]
      ∧ ∃ rest, (handleSendMessage envNoKey initialState "oi").state.messages
          = initialState.messages ++ { role := .user, content := "oi" } :: rest :=
  C4_user_message_durable envNoKey initialState "oi" (by decide) rfl

/-- C7 witness: `C7_unknown_capability_sentinel` on the undeclared-tool
fixture: the tool-role result carries the literal sentinel text and the
pass ends Done after both exchanges, with the full batch persisted. -/
theorem C7_unknown_capability_sentinel_witness :
    (handleSendMessage envUnknownTool initialState "use a ferramenta x").outcome
        = .done
      ∧ (handleSendMessage envUnknownTool initialState "use a ferramenta x").apiCalls
        = 2
      ∧ (handleSendMessage envUnknownTool initialState "use a ferramenta x").appends
        = [[{ role := .user, content := "use a ferramenta x" }],
           [{ role := .assistant, content := "",
              tool_calls := some
                [{ id := "X1",
                   function := { name := "ferramenta_x",
                                 arguments := "\x7b\x7d" } }] },
            { role := .tool, content := "Ferramenta desconhecida.",
              tool_call_id := some "X1", name := some "ferramenta_x" },
            { role := .assistant,
              content := "essa ferramenta eu não conheço" }]] := by
  obtain ⟨tms, hb, hm, hdone, hcalls, happ⟩ :=
    C7_unknown_capability_sentinel envUnknownTool initialState
      "use a ferramenta x" (by decide) rfl "k" rfl _ _ rfl rfl 0
      { id := "X1", function := { name := "ferramenta_x", arguments := "\x7b\x7d" } }
      rfl (by decide) (by decide)
      (fun t ht => ⟨{}, rfl⟩) _ rfl
  have he : buildToolMessages envUnknownTool
      [{ id := "X1",
         function := { name := "ferramenta_x", arguments := "\x7b\x7d" } }]
      = .ok [{ role := .tool, content := "Ferramenta desconhecida.",
               tool_call_id := some "X1", name := some "ferramenta_x" }] := rfl
  have htms := he.symm.trans hb
  injection htms with htms2
  rw [← htms2] at happ
  exact ⟨hdone, hcalls, happ⟩

end Lumen
